import Mathlib

set_option autoImplicit false

/-!
Shallow embedding of PFERD's crawler orchestration core
(`PFERD/crawl/crawler.py`) and of the simple authenticator
(`PFERD/authenticators/simple.py`).

Pure decision logic is translated into executable Lean functions. External
collaborators that the embedded sources only call into (the Transformer's
compiled rule function, `OutputDirectory.download`, the interactive terminal,
the filesystem step `Path(...).expanduser()`) are carried as function
parameters or explicit inputs, and externally visible effects (lifecycle calls
on the output directory, `log.warn` messages, interactive prompts) are
returned as explicit traces.
-/

/-- A relative path (Python `PurePath`), as its list of components. -/
abbrev PPath := List String

/-- The exception kinds relevant to the crawler. `CrawlWarning` and
`CrawlError` are declared in `crawler.py`; `OutputDirError`,
`MarkDuplicateError` and `MarkConflictError` are imported there from the
output-directory and report modules. `otherError` stands for any further
exception (e.g. a runtime error). Each carries its message (`str(e)`). -/
inductive PExc where
  | crawlWarning (msg : String)
  | crawlError (msg : String)
  | outputDirError (msg : String)
  | markDuplicateError (msg : String)
  | markConflictError (msg : String)
  | otherError (msg : String)
deriving DecidableEq

/-- Membership in the exception tuple caught by `noncritical` and
`anoncritical` (`crawler.py` lines 49 and 83): `CrawlWarning`,
`OutputDirError`, `MarkDuplicateError`, `MarkConflictError`. -/
def PExc.isNoncritical : PExc → Bool
  | .crawlWarning _ => true
  | .outputDirError _ => true
  | .markDuplicateError _ => true
  | .markConflictError _ => true
  | _ => false

/-- The message `str(e)` passed to `log.warn`. -/
def PExc.message : PExc → String
  | .crawlWarning m => m
  | .crawlError m => m
  | .outputDirError m => m
  | .markDuplicateError m => m
  | .markConflictError m => m
  | .otherError m => m

deriving instance DecidableEq for Except

/-- A configuration error as raised by `Section.invalid_value`, naming the
field, the offending value and the reason. -/
structure ConfigError where
  field : String
  value : String
  reason : String
deriving DecidableEq

/-- The raw lookups a `CrawlerSection` performs on its configparser section:
`s.getint("max_concurrent_tasks")`, `s.getint("max_concurrent_downloads")`
and `s.get("output_dir")`; `none` means the key is absent. -/
structure CrawlerSection where
  tasksKey : Option Int
  downloadsKey : Option Int
  outputDirKey : Option String
deriving DecidableEq

/-- `CrawlerSection.max_concurrent_tasks` (`crawler.py` lines 162-167):
default 1; a value `≤ 0` is a configuration error. -/
def CrawlerSection.max_concurrent_tasks (s : CrawlerSection) :
    Except ConfigError Int :=
  let value := s.tasksKey.getD 1
  if value ≤ 0 then
    Except.error ⟨"max_concurrent_tasks", toString value, "Must be greater than 0"⟩
  else
    Except.ok value

/-- `CrawlerSection.max_concurrent_downloads` (`crawler.py` lines 169-180):
defaults to `max_concurrent_tasks()`; a present value must satisfy
`0 < value ≤ max_concurrent_tasks()`. -/
def CrawlerSection.max_concurrent_downloads (s : CrawlerSection) :
    Except ConfigError Int :=
  match s.max_concurrent_tasks with
  | Except.error e => Except.error e
  | Except.ok tasks =>
    match s.downloadsKey with
    | none => Except.ok tasks
    | some value =>
      if value ≤ 0 then
        Except.error ⟨"max_concurrent_downloads", toString value,
          "Must be greater than 0"⟩
      else if tasks < value then
        Except.error ⟨"max_concurrent_downloads", toString value,
          "Must not be greater than max_concurrent_tasks"⟩
      else
        Except.ok value

/-- Python `name.startswith("crawl:")`, stated over the string's code points
(which is what Python's `str` indexes). -/
def startsWithCrawl (name : String) : Bool :=
  name.toList.take 6 == "crawl:".toList

/-- Python `name[len("crawl:"):]`: drop the first six code points. -/
def dropCrawl (name : String) : String :=
  (name.toList.drop 6).asString

/-- `CrawlerSection.output_dir` (`crawler.py` lines 131-135): a leading
`crawl:` is stripped from the target name (Python `name[len("crawl:"):]`,
six characters), then `Path(self.s.get("output_dir", name)).expanduser()`.
The environment-dependent step `str(Path(...).expanduser())` is passed in as
`expand`. -/
def CrawlerSection.output_dir (expand : String → String) (s : CrawlerSection)
    (name : String) : String :=
  let name' := if startsWithCrawl name then dropCrawl name else name
  expand (s.outputDirKey.getD name')

/-- Modelled from the spec: the `Redownload` policy enum
(`never | never-smart | always | always-smart`) is declared in the
output-directory module, which is not among the embedded sources. It is only
an argument type here. -/
inductive Redownload where
  | never
  | neverSmart
  | always
  | alwaysSmart
deriving DecidableEq

/-- Modelled from the spec: the `OnConflict` policy enum
(`prompt | overwrite | skip`) is declared in the output-directory module,
which is not among the embedded sources. It is only an argument type here. -/
inductive OnConflict where
  | prompt
  | overwrite
  | skip
deriving DecidableEq

/-- Abstract handle returned by `OutputDirectory.download` (external module). -/
structure FileSinkToken where
  id : Nat
deriving DecidableEq

/-- The limiter configuration built by `Crawler.__init__` (its admission
behavior is external; only the data handed to it is carried; the float-valued
`delay_between_tasks` plays no role in the embedded claims and is omitted). -/
structure Limiter where
  taskLimit : Int
  downloadLimit : Int
deriving DecidableEq

/-- `CrawlToken(limiter, path)` as constructed by `Crawler.crawl`. -/
structure CrawlToken where
  limiter : Limiter
  path : PPath
deriving DecidableEq

/-- `DownloadToken(limiter, fs_token, path)` as constructed by
`Crawler.download`. -/
structure DownloadToken where
  limiter : Limiter
  fsToken : FileSinkToken
  path : PPath
deriving DecidableEq

/-- The `Crawler` orchestrator state. `transform` is the composed
Transformer's `transform` method and `odDownload` the composed
`OutputDirectory.download` (both external to the embedded sources, carried as
functions). -/
structure Crawler where
  error_free : Bool
  limiter : Limiter
  transform : PPath → Option PPath
  odDownload : PPath → PPath → Option Int → Option Redownload →
    Option OnConflict → Option FileSinkToken

/-- Replace only the `error_free` field (the sole crawler attribute the
wrappers assign). -/
def Crawler.withErrorFree (c : Crawler) (b : Bool) : Crawler :=
  ⟨b, c.limiter, c.transform, c.odDownload⟩

/-- `Crawler.__init__` (`crawler.py` lines 200-230): reads the limiter
configuration from the section (a configuration error propagates) and starts
with `error_free = True`. -/
def Crawler.init (s : CrawlerSection) (transform : PPath → Option PPath)
    (odDownload : PPath → PPath → Option Int → Option Redownload →
      Option OnConflict → Option FileSinkToken) :
    Except ConfigError Crawler :=
  match s.max_concurrent_tasks with
  | Except.error e => Except.error e
  | Except.ok tasks =>
    match s.max_concurrent_downloads with
    | Except.error e => Except.error e
    | Except.ok downloads =>
      Except.ok ⟨true, ⟨tasks, downloads⟩, transform, odDownload⟩

/-- The `@noncritical` decorator (`crawler.py` lines 30-56): runs the wrapped
member function `f` on the crawler; a `CrawlWarning` / `OutputDirError` /
`MarkDuplicateError` / `MarkConflictError` is logged via `log.warn` and
swallowed after setting `error_free = False`; any other exception sets
`error_free = False` and is re-raised. A wrapped call is a state
transformer returning the new state and the exception it raised, if any; the
wrapper returns the crawler state, the escaping exception if any, and the
list of messages logged. -/
def Crawler.noncritical (f : Crawler → Crawler × Option PExc) (c : Crawler) :
    Crawler × Option PExc × List String :=
  match f c with
  | (c', none) => (c', none, [])
  | (c', some e) =>
    if e.isNoncritical then (c'.withErrorFree false, none, [e.message])
    else (c'.withErrorFree false, some e, [])

/-- The `@anoncritical` decorator (`crawler.py` lines 62-90), the async
version of `noncritical`; under the program's single-threaded cooperative
scheduling an awaited wrapped call has the same shape. -/
def Crawler.anoncritical (f : Crawler → Crawler × Option PExc) (c : Crawler) :
    Crawler × Option PExc × List String :=
  match f c with
  | (c', none) => (c', none, [])
  | (c', some e) =>
    if e.isNoncritical then (c'.withErrorFree false, none, [e.message])
    else (c'.withErrorFree false, some e, [])

/-- `Crawler.crawl` (`crawler.py` lines 259-267): consult the Transformer; an
excluded path yields no token, otherwise a `CrawlToken` bound to the limiter
and the original path. -/
def Crawler.crawl (c : Crawler) (path : PPath) : Option CrawlToken :=
  match c.transform path with
  | none => none
  | some _ => some ⟨c.limiter, path⟩

/-- `Crawler.download` (`crawler.py` lines 269-289): consult the Transformer;
an excluded path yields no token and `OutputDirectory.download` is never
called; otherwise delegate to it, and wrap an approved sink in a
`DownloadToken`. The second component records whether the output directory
was consulted. -/
def Crawler.download (c : Crawler) (path : PPath) (mtime : Option Int)
    (redownload : Option Redownload) (onConflict : Option OnConflict) :
    Option DownloadToken × Bool :=
  match c.transform path with
  | none => (none, false)
  | some transformedPath =>
    match c.odDownload path transformedPath mtime redownload onConflict with
    | none => (none, true)
    | some fsToken => (some ⟨c.limiter, fsToken, path⟩, true)

/-- The externally observable lifecycle calls of `Crawler.run`. -/
inductive REvent where
  | prepare
  | loadPrevReport
  | strategyRun
  | odCleanup
  | storeReport
deriving DecidableEq

/-- `Crawler._cleanup` (`crawler.py` lines 291-299): invokes
`OutputDirectory.cleanup()` exactly when `error_free` is still true. Returns
the output-directory calls made. -/
def Crawler.cleanupStep (c : Crawler) : List REvent :=
  if c.error_free then [REvent.odCleanup] else []

/-- `Crawler.run` (`crawler.py` lines 301-312): `prepare()`,
`load_prev_report()`, the strategy's `_run()` (abstract, supplied by the
concrete subclass, passed here as `strategy`), then — only if `_run` returns —
the `_cleanup` decision followed by `store_report()`. The body has no
try/finally, so an exception escaping `_run` propagates at once. Returns the
lifecycle trace, the final crawler state and the escaping exception, if any. -/
def Crawler.run (strategy : Crawler → Crawler × Option PExc) (c : Crawler) :
    List REvent × Crawler × Option PExc :=
  match strategy c with
  | (c', some e) =>
    ([REvent.prepare, REvent.loadPrevReport, REvent.strategyRun], c', some e)
  | (c', none) =>
    ([REvent.prepare, REvent.loadPrevReport, REvent.strategyRun]
       ++ Crawler.cleanupStep c' ++ [REvent.storeReport], c', none)

/-- An `AuthException` (fatal authentication error). -/
structure AuthException where
  msg : String
deriving DecidableEq

/-- The interactive prompts `credentials()` may issue (`ainput("Username: ")`
and `agetpass("Password: ")`; the plain `print` of an already known username
is output, not a prompt). -/
inductive Prompt where
  | askUsername
  | askPassword
deriving DecidableEq

/-- `SimpleAuthenticator` state: the current (possibly cleared) values
`_username` / `_password` and the `_username_fixed` / `_password_fixed`
flags set in `__init__`. -/
structure SimpleAuthenticator where
  username : Option String
  password : Option String
  usernameFixed : Bool
  passwordFixed : Bool
deriving DecidableEq

/-- Modelled from the spec: `SimpleAuthenticator.__init__` (`simple.py` lines
18-31) computes the fixed flags from `self.username` / `self.password`, which
resolve through the base `Authenticator` class, a module that is not among
the embedded sources; per the spec's authenticator contract these denote the
values fixed by configuration, which at this point in `__init__` equal the
`_username` / `_password` just read from the section. -/
def SimpleAuthenticator.init (sectionUsername sectionPassword : Option String) :
    SimpleAuthenticator :=
  ⟨sectionUsername, sectionPassword, sectionUsername.isSome, sectionPassword.isSome⟩

/-- `SimpleAuthenticator.credentials` (`simple.py` lines 33-48): when both
values are known they are returned with no interaction; otherwise, under
exclusive terminal output, `ainput` / `agetpass` supply exactly the missing
values (the strings the user would type are passed as `inU` / `inP`).
Returns the updated authenticator, the returned pair and the prompts issued,
in order. -/
def SimpleAuthenticator.credentials (inU inP : String)
    (a : SimpleAuthenticator) :
    SimpleAuthenticator × (String × String) × List Prompt :=
  match a.username, a.password with
  | some u, some p => (a, (u, p), [])
  | u?, p? =>
    let askU := match u? with
      | none => (inU, [Prompt.askUsername])
      | some u => (u, [])
    let askP := match p? with
      | none => (inP, [Prompt.askPassword])
      | some p => (p, [])
    (⟨some askU.1, some askP.1, a.usernameFixed, a.passwordFixed⟩,
     (askU.1, askP.1), askU.2 ++ askP.2)

/-- `SimpleAuthenticator.invalidate_credentials` (`simple.py` lines 50-57). -/
def SimpleAuthenticator.invalidate_credentials (a : SimpleAuthenticator) :
    Except AuthException SimpleAuthenticator :=
  if a.usernameFixed && a.passwordFixed then
    Except.error ⟨"Configured credentials are invalid"⟩
  else
    Except.ok ⟨if a.usernameFixed then a.username else none,
               if a.passwordFixed then a.password else none,
               a.usernameFixed, a.passwordFixed⟩

/-- `SimpleAuthenticator.invalidate_username` (`simple.py` lines 59-63). -/
def SimpleAuthenticator.invalidate_username (a : SimpleAuthenticator) :
    Except AuthException SimpleAuthenticator :=
  if a.usernameFixed then Except.error ⟨"Configured username is invalid"⟩
  else Except.ok ⟨none, a.password, a.usernameFixed, a.passwordFixed⟩

/-- `SimpleAuthenticator.invalidate_password` (`simple.py` lines 65-69). -/
def SimpleAuthenticator.invalidate_password (a : SimpleAuthenticator) :
    Except AuthException SimpleAuthenticator :=
  if a.passwordFixed then Except.error ⟨"Configured password is invalid"⟩
  else Except.ok ⟨a.username, none, a.usernameFixed, a.passwordFixed⟩

/-!
Concrete sample instances of the external collaborators, used to evaluate the
theorems on closed inputs.
-/

/-- A sample `str(Path(...).expanduser())` step, for an environment whose
current user's home directory is `/home/user`: the path `~`, or a path whose
first component is `~`, is expanded; every other path is returned as given
(stated over code points, like `dropCrawl`). -/
def sampleExpand (s : String) : String :=
  if s = "~" then "/home/user"
  else if s.toList.take 2 == ['~', '/'] then "/home/user" ++ (s.toList.drop 1).asString
  else s

/-- A section with every key absent. -/
def sectionNoKeys : CrawlerSection := ⟨none, none, none⟩

/-- A section with `max_concurrent_tasks = 2` and `max_concurrent_downloads = 1`. -/
def sampleSection : CrawlerSection := ⟨some 2, some 1, none⟩

/-- A sample Transformer rule function that excludes the path `skipme` and
passes every other path through unchanged. -/
def sampleTransform : PPath → Option PPath :=
  fun p => if p = ["skipme"] then none else some p

/-- A sample `OutputDirectory.download` that approves every request. -/
def sampleOdDownload : PPath → PPath → Option Int → Option Redownload →
    Option OnConflict → Option FileSinkToken :=
  fun _ _ _ _ _ => some ⟨0⟩

/-- A freshly initialized sample crawler (`error_free = true`). -/
def sampleCrawler : Crawler := ⟨true, ⟨2, 1⟩, sampleTransform, sampleOdDownload⟩

/-- A strategy whose `_run` raises a `CrawlError` (a fatal failure escaping
the two-tier wrapper, which re-raises it after clearing `error_free`). -/
def fatalStrategy : Crawler → Crawler × Option PExc :=
  fun c => (c.withErrorFree false, some (PExc.crawlError "Boom"))

/-- A strategy whose `_run` returns normally after a recoverable failure was
caught by a wrapper inside it, leaving `error_free = false`. -/
def warnStrategy : Crawler → Crawler × Option PExc :=
  fun c => (c.withErrorFree false, none)

/-- A strategy whose `_run` returns normally with no failure at all. -/
def okStrategy : Crawler → Crawler × Option PExc :=
  fun c => (c, none)

/-- A wrapped member function that raises a `CrawlWarning`. -/
def warnRaiser : Crawler → Crawler × Option PExc :=
  fun c => (c, some (PExc.crawlWarning "W"))

/-- A wrapped member function that raises a `CrawlError`. -/
def fatalRaiser : Crawler → Crawler × Option PExc :=
  fun c => (c, some (PExc.crawlError "F"))

/-- A sample authenticator whose username is fixed by configuration and whose
password is not. -/
def authUserFixed : SimpleAuthenticator := SimpleAuthenticator.init (some "admin") none

/-- A sample authenticator whose password is fixed by configuration and whose
username is not. -/
def authPassFixed : SimpleAuthenticator := SimpleAuthenticator.init none (some "pw")

/-- A sample authenticator with both values fixed by configuration. -/
def authBothFixed : SimpleAuthenticator := SimpleAuthenticator.init (some "admin") (some "pw")

/-!
Theorems settling the claims.
-/

/-- C1 (amended): whenever the strategy's `_run` entry point returns — in
particular on runs where recoverable failures already cleared `error_free` —
`store_report()` executes at run end, after the strategy and after the
cleanup decision, regardless of the flag; but when an exception escapes
`_run`, `run()` propagates it and `store_report()` is never reached. -/
theorem c1_store_report (strategy : Crawler → Crawler × Option PExc)
    (c : Crawler) :
    ((strategy c).2 = none →
      (Crawler.run strategy c).1 =
        [REvent.prepare, REvent.loadPrevReport, REvent.strategyRun]
          ++ Crawler.cleanupStep (strategy c).1 ++ [REvent.storeReport]) ∧
    (∀ e, (strategy c).2 = some e →
      (Crawler.run strategy c).2.2 = some e ∧
      REvent.storeReport ∉ (Crawler.run strategy c).1) := by
  refine ⟨?_, ?_⟩
  · intro h
    rcases hs : strategy c with ⟨c', exc⟩
    rw [hs] at h
    simp only at h
    subst h
    simp [Crawler.run, hs]
  · intro e he
    rcases hs : strategy c with ⟨c', exc⟩
    rw [hs] at he
    simp only at he
    subst he
    refine ⟨by simp [Crawler.run, hs], ?_⟩
    simp only [Crawler.run, hs]
    decide

/-- C1 counterexample: for a strategy whose `_run` raises a `CrawlError`, the
run propagates the error and its lifecycle trace contains no `store_report()`
call — the report is not persisted on that errored path, contradicting
"persisted unconditionally at run end (even on error)". -/
theorem c1_counterexample :
    (Crawler.run fatalStrategy sampleCrawler).2.2 = some (PExc.crawlError "Boom") ∧
    REvent.storeReport ∉ (Crawler.run fatalStrategy sampleCrawler).1 := by
  decide

/-- C1 witness: a run whose strategy returns with `error_free = false` (a
recoverable failure occurred) still ends with `store_report()` after the
cleanup decision. -/
theorem c1_store_report_witness :
    (Crawler.run warnStrategy sampleCrawler).1 =
      [REvent.prepare, REvent.loadPrevReport, REvent.strategyRun,
       REvent.storeReport] := by
  have h := (c1_store_report warnStrategy sampleCrawler).1 (by decide)
  rw [h]
  decide

/-- C2: `OutputDirectory.cleanup()` is invoked iff `error_free` is true at the
time the cleanup decision is made: `_cleanup` calls it exactly when the flag
is true; in a completed run the call appears in the trace exactly when the
strategy left the flag true; and a run aborted by an escaping exception never
reaches it. -/
theorem c2_cleanup_gating (strategy : Crawler → Crawler × Option PExc)
    (c : Crawler) :
    (REvent.odCleanup ∈ Crawler.cleanupStep c ↔ c.error_free = true) ∧
    ((strategy c).2 = none →
       (REvent.odCleanup ∈ (Crawler.run strategy c).1 ↔
         (strategy c).1.error_free = true)) ∧
    (∀ e, (strategy c).2 = some e →
       REvent.odCleanup ∉ (Crawler.run strategy c).1) := by
  refine ⟨?_, ?_, ?_⟩
  · unfold Crawler.cleanupStep
    by_cases h : c.error_free <;> simp [h]
  · intro hn
    rcases hs : strategy c with ⟨c', exc⟩
    rw [hs] at hn
    simp only at hn
    subst hn
    simp only [Crawler.run, hs, Crawler.cleanupStep]
    by_cases h : c'.error_free <;> simp [h]
  · intro e he
    rcases hs : strategy c with ⟨c', exc⟩
    rw [hs] at he
    simp only at he
    subst he
    simp only [Crawler.run, hs]
    decide

/-- C2 witness: an error-free run's trace contains the
`OutputDirectory.cleanup()` call. -/
theorem c2_cleanup_gating_witness :
    REvent.odCleanup ∈ (Crawler.run okStrategy sampleCrawler).1 := by
  have h := (c2_cleanup_gating okStrategy sampleCrawler).2.1 (by decide)
  exact h.mpr (by decide)

/-- C3: behavior of the two-tier wrappers `noncritical` and `anoncritical`.
A failure of the recoverable class (crawl warning, output-directory error,
duplicate marking, conflict marking) is logged, clears `error_free` and is
swallowed, so the wrapper returns normally; any other failure clears
`error_free` and is re-raised unchanged; on success the wrapper returns the
wrapped call's state untouched, so `error_free` is unchanged. -/
theorem c3_two_tier (f : Crawler → Crawler × Option PExc) (c : Crawler) :
    ((f c).2 = none →
       Crawler.noncritical f c = ((f c).1, none, []) ∧
       Crawler.anoncritical f c = ((f c).1, none, [])) ∧
    (∀ e, (f c).2 = some e → e.isNoncritical = true →
       Crawler.noncritical f c = ((f c).1.withErrorFree false, none, [e.message]) ∧
       Crawler.anoncritical f c = ((f c).1.withErrorFree false, none, [e.message])) ∧
    (∀ e, (f c).2 = some e → e.isNoncritical = false →
       Crawler.noncritical f c = ((f c).1.withErrorFree false, some e, []) ∧
       Crawler.anoncritical f c = ((f c).1.withErrorFree false, some e, [])) := by
  refine ⟨?_, ?_, ?_⟩
  · intro h
    rcases hfc : f c with ⟨c', exc⟩
    rw [hfc] at h
    simp only at h
    subst h
    constructor <;> simp [Crawler.noncritical, Crawler.anoncritical, hfc]
  · intro e he hr
    rcases hfc : f c with ⟨c', exc⟩
    rw [hfc] at he
    simp only at he
    subst he
    constructor <;> simp [Crawler.noncritical, Crawler.anoncritical, hfc, hr]
  · intro e he hr
    rcases hfc : f c with ⟨c', exc⟩
    rw [hfc] at he
    simp only at he
    subst he
    constructor <;> simp [Crawler.noncritical, Crawler.anoncritical, hfc, hr]

/-- C3 witness: a wrapped call raising a `CrawlWarning` is logged and
swallowed with `error_free` cleared; one raising a `CrawlError` re-raises it
with `error_free` cleared. -/
theorem c3_two_tier_witness :
    Crawler.noncritical warnRaiser sampleCrawler
      = (sampleCrawler.withErrorFree false, none, ["W"]) ∧
    Crawler.anoncritical fatalRaiser sampleCrawler
      = (sampleCrawler.withErrorFree false, some (PExc.crawlError "F"), []) :=
  ⟨(((c3_two_tier warnRaiser sampleCrawler).2.1
       (PExc.crawlWarning "W") rfl rfl).1).trans rfl,
   (((c3_two_tier fatalRaiser sampleCrawler).2.2
       (PExc.crawlError "F") rfl rfl).2).trans rfl⟩

/-- C4: a path for which the Transformer yields no result gives
`crawl() = None`, and `download() = None` for every choice of `mtime`,
`redownload` and `on_conflict`, with the output directory never consulted. -/
theorem c4_exclusion (c : Crawler) (path : PPath)
    (h : c.transform path = none) :
    Crawler.crawl c path = none ∧
    ∀ mtime redownload onConflict,
      Crawler.download c path mtime redownload onConflict = (none, false) := by
  constructor
  · simp [Crawler.crawl, h]
  · intro mtime redownload onConflict
    simp [Crawler.download, h]

/-- C4 witness: the sample Transformer excludes the path `skipme`; both calls
decline, and the download decision does not reach the output directory. -/
theorem c4_exclusion_witness :
    Crawler.crawl sampleCrawler ["skipme"] = none ∧
    Crawler.download sampleCrawler ["skipme"] (some 5) (some Redownload.always)
      (some OnConflict.overwrite) = (none, false) :=
  ⟨(c4_exclusion sampleCrawler ["skipme"] (by decide)).1,
   (c4_exclusion sampleCrawler ["skipme"] (by decide)).2 (some 5)
     (some Redownload.always) (some OnConflict.overwrite)⟩

/-- C6: reading `max_concurrent_downloads` returns `max_concurrent_tasks`
when the key is absent; a present value `v` with `v ≤ 0` or
`v > max_concurrent_tasks` raises a configuration error naming the field, the
offending value and the reason; otherwise `v` is returned unchanged. -/
theorem c6_max_concurrent_downloads (s : CrawlerSection) (t : Int)
    (h : s.max_concurrent_tasks = Except.ok t) :
    (s.downloadsKey = none → s.max_concurrent_downloads = Except.ok t) ∧
    (∀ v, s.downloadsKey = some v →
      (v ≤ 0 → s.max_concurrent_downloads =
         Except.error ⟨"max_concurrent_downloads", toString v,
           "Must be greater than 0"⟩) ∧
      (t < v → s.max_concurrent_downloads =
         Except.error ⟨"max_concurrent_downloads", toString v,
           "Must not be greater than max_concurrent_tasks"⟩) ∧
      (0 < v → v ≤ t → s.max_concurrent_downloads = Except.ok v)) := by
  have ht : 0 < t := by
    by_cases hle : s.tasksKey.getD 1 ≤ 0
    · have hval : s.max_concurrent_tasks = Except.error
          ⟨"max_concurrent_tasks", toString (s.tasksKey.getD 1),
           "Must be greater than 0"⟩ := by
        simp [CrawlerSection.max_concurrent_tasks, hle]
      rw [hval] at h
      exact absurd h (by simp)
    · have hval : s.max_concurrent_tasks = Except.ok (s.tasksKey.getD 1) := by
        simp [CrawlerSection.max_concurrent_tasks, hle]
      rw [hval] at h
      simp only [Except.ok.injEq] at h
      omega
  refine ⟨?_, ?_⟩
  · intro hd
    simp [CrawlerSection.max_concurrent_downloads, h, hd]
  · intro v hd
    refine ⟨?_, ?_, ?_⟩
    · intro hv
      simp only [CrawlerSection.max_concurrent_downloads, h, hd]
      rw [if_pos hv]
    · intro hv
      simp only [CrawlerSection.max_concurrent_downloads, h, hd]
      rw [if_neg (by omega), if_pos hv]
    · intro hv1 hv2
      simp only [CrawlerSection.max_concurrent_downloads, h, hd]
      rw [if_neg (by omega), if_neg (by omega)]

/-- C6 witness: with `max_concurrent_tasks = 2`, an absent key defaults to 2,
a value of 1 is returned unchanged, and a value of 5 is a configuration error
naming the field, the value and the reason. -/
theorem c6_max_concurrent_downloads_witness :
    CrawlerSection.max_concurrent_downloads ⟨some 2, none, none⟩ = Except.ok 2 ∧
    sampleSection.max_concurrent_downloads = Except.ok 1 ∧
    CrawlerSection.max_concurrent_downloads ⟨some 2, some 5, none⟩ =
      Except.error ⟨"max_concurrent_downloads", toString (5 : Int),
        "Must not be greater than max_concurrent_tasks"⟩ :=
  ⟨(c6_max_concurrent_downloads ⟨some 2, none, none⟩ 2 (by decide)).1 rfl,
   ((c6_max_concurrent_downloads sampleSection 2 (by decide)).2 1 rfl).2.2
     (by decide) (by decide),
   ((c6_max_concurrent_downloads ⟨some 2, some 5, none⟩ 2 (by decide)).2 5
     rfl).2.1 (by decide)⟩

/-- C7: `invalidate_username` (resp. `invalidate_password`) raises a fatal
`AuthException` iff that value is fixed by configuration, and otherwise clears
it; `invalidate_credentials` raises iff both values are fixed (nothing left to
clear), and otherwise clears exactly the non-fixed values; a value cleared
this way makes the next `credentials()` call prompt for it again. -/
theorem c7_invalidate (a : SimpleAuthenticator) :
    (a.usernameFixed = true →
       a.invalidate_username = Except.error ⟨"Configured username is invalid"⟩) ∧
    (a.passwordFixed = true →
       a.invalidate_password = Except.error ⟨"Configured password is invalid"⟩) ∧
    (a.usernameFixed = true → a.passwordFixed = true →
       a.invalidate_credentials = Except.error ⟨"Configured credentials are invalid"⟩) ∧
    (a.usernameFixed = false →
       a.invalidate_username =
         Except.ok ⟨none, a.password, a.usernameFixed, a.passwordFixed⟩) ∧
    (a.passwordFixed = false →
       a.invalidate_password =
         Except.ok ⟨a.username, none, a.usernameFixed, a.passwordFixed⟩) ∧
    ((a.usernameFixed && a.passwordFixed) = false →
       a.invalidate_credentials = Except.ok
         ⟨if a.usernameFixed then a.username else none,
          if a.passwordFixed then a.password else none,
          a.usernameFixed, a.passwordFixed⟩) ∧
    (∀ a', a.invalidate_username = Except.ok a' →
       ∀ inU inP, Prompt.askUsername ∈ (a'.credentials inU inP).2.2) ∧
    (∀ a', a.invalidate_password = Except.ok a' →
       ∀ inU inP, Prompt.askPassword ∈ (a'.credentials inU inP).2.2) := by
  refine ⟨?_, ?_, ?_, ?_, ?_, ?_, ?_, ?_⟩
  · intro h
    simp [SimpleAuthenticator.invalidate_username, h]
  · intro h
    simp [SimpleAuthenticator.invalidate_password, h]
  · intro h1 h2
    simp [SimpleAuthenticator.invalidate_credentials, h1, h2]
  · intro h
    simp [SimpleAuthenticator.invalidate_username, h]
  · intro h
    simp [SimpleAuthenticator.invalidate_password, h]
  · intro h
    simp only [SimpleAuthenticator.invalidate_credentials, h]
    rw [if_neg (by simp [h])]
  · intro a' h inU inP
    unfold SimpleAuthenticator.invalidate_username at h
    split at h
    · exact absurd h (by simp)
    · simp only [Except.ok.injEq] at h
      subst h
      cases hp : a.password <;>
        simp [SimpleAuthenticator.credentials]
  · intro a' h inU inP
    unfold SimpleAuthenticator.invalidate_password at h
    split at h
    · exact absurd h (by simp)
    · simp only [Except.ok.injEq] at h
      subst h
      cases hu : a.username <;>
        simp [SimpleAuthenticator.credentials]

/-- C7 witness: with the username fixed by configuration and the password
not, invalidating the username is a fatal error, invalidating the password
clears it, invalidating the credentials clears only the password, and with
both fixed invalidating the credentials is a fatal error. -/
theorem c7_invalidate_witness :
    authUserFixed.invalidate_username =
      Except.error ⟨"Configured username is invalid"⟩ ∧
    authUserFixed.invalidate_password =
      Except.ok ⟨some "admin", none, true, false⟩ ∧
    authUserFixed.invalidate_credentials =
      Except.ok ⟨some "admin", none, true, false⟩ ∧
    authBothFixed.invalidate_credentials =
      Except.error ⟨"Configured credentials are invalid"⟩ :=
  ⟨(c7_invalidate authUserFixed).1 rfl,
   ((c7_invalidate authUserFixed).2.2.2.2.1 rfl).trans rfl,
   ((c7_invalidate authUserFixed).2.2.2.2.2.1 rfl).trans rfl,
   (c7_invalidate authBothFixed).2.2.1 rfl rfl⟩

/-- C8: `credentials()` issues interactive prompts exactly for the currently
missing values (none at all when both are known, in which case the stored
pair is returned unchanged), and it always returns a pair both of whose
components are present, recorded in the updated state. -/
theorem c8_credentials (inU inP : String) (a : SimpleAuthenticator) :
    ((a.credentials inU inP).2.2 =
        (if a.username = none then [Prompt.askUsername] else [])
          ++ (if a.password = none then [Prompt.askPassword] else [])) ∧
    (∀ u p, a.username = some u → a.password = some p →
       a.credentials inU inP = (a, (u, p), [])) ∧
    ((a.credentials inU inP).1.username = some (a.credentials inU inP).2.1.1 ∧
     (a.credentials inU inP).1.password = some (a.credentials inU inP).2.1.2) := by
  rcases a with ⟨u?, p?, uf, pf⟩
  cases u? <;> cases p? <;>
    simp [SimpleAuthenticator.credentials]

/-- C8 witness: with both values fixed, `credentials()` returns the stored
pair with no prompt; with only the password configured, it prompts exactly
for the username and returns both values. -/
theorem c8_credentials_witness :
    SimpleAuthenticator.credentials "u" "p" authBothFixed
      = (authBothFixed, ("admin", "pw"), []) ∧
    (SimpleAuthenticator.credentials "alice" "x" authPassFixed).2 =
      (("alice", "pw"), [Prompt.askUsername]) :=
  ⟨(c8_credentials "u" "p" authBothFixed).2.1 "admin" "pw" rfl rfl,
   by
    have h := (c8_credentials "alice" "x" authPassFixed).1
    refine Prod.ext ?_ ?_
    · decide
    · rw [h]
      decide⟩

/-- C9: the `error_free` flag is monotone. `__init__` starts it at true; a
wrapped call comes back true only when the call succeeded and itself left the
flag true (every write the wrappers perform writes false); and `run` never
writes the flag, returning exactly the strategy's flag. -/
theorem c9_error_free_monotone :
    (∀ s tr od c, Crawler.init s tr od = Except.ok c → c.error_free = true) ∧
    (∀ f c, (Crawler.noncritical f c).1.error_free
              = ((f c).1.error_free && (f c).2.isNone)) ∧
    (∀ f c, (Crawler.anoncritical f c).1.error_free
              = ((f c).1.error_free && (f c).2.isNone)) ∧
    (∀ strategy c,
       (Crawler.run strategy c).2.1.error_free = (strategy c).1.error_free) := by
  refine ⟨?_, ?_, ?_, ?_⟩
  · intro s tr od c h
    unfold Crawler.init at h
    rcases h1 : s.max_concurrent_tasks with e | t <;> rw [h1] at h
    · exact absurd h (by simp)
    · rcases h2 : s.max_concurrent_downloads with e | d <;> rw [h2] at h
      · exact absurd h (by simp)
      · simp only [Except.ok.injEq] at h
        rw [← h]
  · intro f c
    rcases hfc : f c with ⟨c', exc⟩
    cases exc <;>
      simp only [Crawler.noncritical, hfc, Option.isNone]
    · simp
    · rename_i e
      by_cases hr : e.isNoncritical <;> simp [hr, Crawler.withErrorFree]
  · intro f c
    rcases hfc : f c with ⟨c', exc⟩
    cases exc <;>
      simp only [Crawler.anoncritical, hfc, Option.isNone]
    · simp
    · rename_i e
      by_cases hr : e.isNoncritical <;> simp [hr, Crawler.withErrorFree]
  · intro strategy c
    rcases hs : strategy c with ⟨c', exc⟩
    cases exc <;> simp [Crawler.run, hs]

/-- C9 witness: the sample crawler produced by `Crawler.init` starts with
`error_free = true`. -/
theorem c9_error_free_monotone_witness :
    sampleCrawler.error_free = true :=
  c9_error_free_monotone.1 sampleSection sampleTransform sampleOdDownload
    sampleCrawler rfl

/-- C10 (amended): with no configured `output_dir`, the target name — with a
leading `crawl:` stripped when present, unchanged otherwise — is passed to
the same `Path(...).expanduser()` step a configured value goes through, so
the derived directory is the user expansion of the (possibly stripped) name,
not necessarily the literal name; an explicitly configured value is used,
user-expanded, regardless of the name. -/
theorem c10_output_dir (expand : String → String) (s : CrawlerSection)
    (name : String) :
    (s.outputDirKey = none →
       CrawlerSection.output_dir expand s name
         = expand (if startsWithCrawl name then dropCrawl name else name)) ∧
    (∀ v, s.outputDirKey = some v →
       CrawlerSection.output_dir expand s name = expand v) := by
  constructor
  · intro h
    simp [CrawlerSection.output_dir, h]
  · intro v h
    simp [CrawlerSection.output_dir, h]

/-- C10 counterexample: the crawl target named `~` has no `crawl:` marker,
yet in an environment whose home directory is `/home/user` the derived
default output directory is `/home/user`, not the name `~` used unchanged —
user expansion applies to the name-derived default as well. -/
theorem c10_counterexample :
    startsWithCrawl "~" = false ∧
    CrawlerSection.output_dir sampleExpand sectionNoKeys "~" = "/home/user" ∧
    ("/home/user" : String) ≠ "~" := by
  decide

/-- C10 witness: the name `crawl:Course` is stripped to `Course` before use,
and a configured `output_dir` wins over the name, each then user-expanded. -/
theorem c10_output_dir_witness :
    CrawlerSection.output_dir sampleExpand sectionNoKeys "crawl:Course"
      = "Course" ∧
    CrawlerSection.output_dir sampleExpand ⟨none, none, some "~/pferd"⟩
      "crawl:Course" = "/home/user/pferd" := by
  constructor
  · have h := (c10_output_dir sampleExpand sectionNoKeys "crawl:Course").1 rfl
    rw [h]
    decide
  · have h := (c10_output_dir sampleExpand ⟨none, none, some "~/pferd"⟩
      "crawl:Course").2 "~/pferd" rfl
    rw [h]
    decide
